import Mathlib

/-!
Verification of the tenant-isolated transaction engine of the invento-be
point-of-sale backend.  The definitions below are a shallow embedding of the
TypeScript controllers:

* `createTransaction`  — `src/src/controllers/transactions.controller.ts`
* `getVariantById`, `adjustStock` — the product-variants controller
* `createEmployee` — the auth controller together with the
  `authorize(OWNER, MANAGER)` middleware of `src/src/routes/auth.routes.ts`

The database is a value of type `DB` (lists of rows); Prisma lookups become
`List.find?` over those lists; JavaScript falsiness on optional string and
number fields is made explicit (`strFalsy`, `numOr`); currency amounts are
embedded as `Int` (exact arithmetic, the fixed-point reading of the spec).
A `prisma.$transaction` block is embedded atomically: the writes it performs
are installed only when the whole block succeeds, and the boolean
`commitFail` models a database-level failure anywhere inside the block
(e.g. a unique-constraint violation on the generated transaction number),
which the surrounding catch handler reports as a 500.
-/

namespace Invento

inductive UserRole where
  | OWNER | MANAGER | CASHIER
deriving DecidableEq, Repr

structure Store where
  id : String
  ownerId : String
deriving DecidableEq, Repr

structure User where
  id : String
  email : String
  ownerId : Option String
  role : UserRole
  storeId : Option String
deriving DecidableEq, Repr

structure Product where
  id : String
  ownerId : String
deriving DecidableEq, Repr

structure ProductVariant where
  id : String
  productId : String
  sku : String
  sellingPrice : Int
  stockQuantity : Int
deriving DecidableEq, Repr

structure TransactionItem where
  productVariantId : String
  quantity : Int
  unitPrice : Int
  discount : Int
  subtotal : Int
deriving DecidableEq, Repr

structure Transaction where
  transactionNo : String
  type : String
  storeId : String
  cashierId : String
  ownerId : String
  subtotal : Int
  tax : Int
  discount : Int
  total : Int
  paymentMethod : String
  amountPaid : Int
  change : Int
  notes : Option String
  items : List TransactionItem
deriving DecidableEq, Repr

structure DB where
  stores : List Store
  users : List User
  products : List Product
  variants : List ProductVariant
  transactions : List Transaction
deriving DecidableEq, Repr

/-- JavaScript truthiness test on an optional string field: `!s` holds when
the field is `undefined` or the empty string. -/
def strFalsy : Option String → Bool
  | none => true
  | some s => s == ""

/-- JavaScript `v || d` on an optional numeric field: `undefined` and `0` are
falsy and fall through to the default. -/
def numOr : Option Int → Int → Int
  | none, d => d
  | some x, d => if x == 0 then d else x

/-- The `!items || items.length === 0` part of the request validation. -/
def itemsMissing : Option (List α) → Bool
  | none => true
  | some l => l.isEmpty

/-- A line item of the request body.  `price` stands for any client-supplied
price field: it is carried by the body but never read by the controller. -/
structure ReqItem where
  productVariantId : String
  quantity : Int
  discount : Option Int
  price : Option Int
deriving DecidableEq, Repr

/-- The body of a transaction-creation request.  `type` defaults to `"SALE"`
at destructuring. -/
structure CreateTxnReq where
  storeId : Option String
  cashierId : Option String
  type : Option String
  items : Option (List ReqItem)
  paymentMethod : Option String
  amountPaid : Option Int
  notes : Option String
  tax : Option Int
  discount : Option Int
deriving DecidableEq, Repr

/-- Every `sendError` site of `createTransaction`, one constructor per site,
with the literal HTTP status recorded by `TxnErr.status`. -/
inductive TxnErr where
  | noTenant
  | missingFields
  | storeNotFound
  | cashierNotFound
  | variantNotFound (productVariantId : String)
  | insufficientStock (sku : String) (available requested : Int)
  | internalError
  | commitFailed
deriving DecidableEq, Repr

def TxnErr.status : TxnErr → Nat
  | .noTenant => 401
  | .missingFields => 400
  | .storeNotFound => 404
  | .cashierNotFound => 404
  | .variantNotFound _ => 404
  | .insufficientStock _ _ _ => 400
  | .internalError => 500
  | .commitFailed => 500

/-- `prisma.store.findFirst({ where: { id, ownerId } })`. -/
def storeLookup (db : DB) (tenant storeId : String) : Option Store :=
  db.stores.find? fun s => s.id == storeId && s.ownerId == tenant

/-- `prisma.user.findFirst` with the cashier tenant condition:
`id = cashierId AND (ownerId = tenant OR (id = tenant AND role = OWNER))`. -/
def cashierLookup (db : DB) (tenant cashierId : String) : Option User :=
  db.users.find? fun u =>
    u.id == cashierId &&
      (u.ownerId == some tenant || (u.id == tenant && u.role == UserRole.OWNER))

/-- `prisma.productVariant.findUnique({ where: { id } })`. -/
def variantLookup (db : DB) (variantId : String) : Option ProductVariant :=
  db.variants.find? fun v => v.id == variantId

def productLookup (db : DB) (productId : String) : Option Product :=
  db.products.find? fun p => p.id == productId

/-- `findUnique` with `include: { product: true }`: the variant together with
its parent product (always present in the real database by foreign key). -/
def variantWithProduct (db : DB) (variantId : String) :
    Option (ProductVariant × Product) :=
  match variantLookup db variantId with
  | none => none
  | some v =>
    match productLookup db v.productId with
    | none => none
    | some p => some (v, p)

/-- First loop of `createTransaction`: validate each line item in request
order and return the first rejection — variant missing or owned by another
tenant (404), or, for a SALE, current stock below the requested quantity
(400).  Each item is checked against the same pre-request stock. -/
def validateItems (db : DB) (tenant ty : String) : List ReqItem → Option TxnErr
  | [] => none
  | item :: rest =>
    match variantWithProduct db item.productVariantId with
    | none => some (TxnErr.variantNotFound item.productVariantId)
    | some (v, p) =>
      if p.ownerId != tenant then some (TxnErr.variantNotFound item.productVariantId)
      else if ty == "SALE" && v.stockQuantity < item.quantity then
        some (TxnErr.insufficientStock v.sku v.stockQuantity item.quantity)
      else validateItems db tenant ty rest

/-- Second loop of `createTransaction`: re-fetch each variant, build the
`TransactionItem` rows and accumulate the running subtotal, exactly as the
source pushes rows and does `subtotal += itemSubtotal`.  A missing variant
corresponds to the non-null assertion `variant!` throwing, which the
surrounding catch reports as 500; we return `none` in that case. -/
def computeItems (db : DB) :
    List ReqItem → List TransactionItem → Int → Option (List TransactionItem × Int)
  | [], acc, subtotal => some (acc, subtotal)
  | item :: rest, acc, subtotal =>
    match variantLookup db item.productVariantId with
    | none => none
    | some v =>
      let itemSubtotal := v.sellingPrice * item.quantity - numOr item.discount 0
      computeItems db rest
        (acc ++ [{ productVariantId := item.productVariantId
                   quantity := item.quantity
                   unitPrice := v.sellingPrice
                   discount := numOr item.discount 0
                   subtotal := itemSubtotal }])
        (subtotal + itemSubtotal)

/-- The stock write of the atomic commit: `increment` the variant's
`stockQuantity` by `delta`, unconditionally. -/
def updStock (vs : List ProductVariant) (variantId : String) (delta : Int) :
    List ProductVariant :=
  vs.map fun v =>
    if v.id == variantId then { v with stockQuantity := v.stockQuantity + delta } else v

/-- The stock-update loop of the atomic commit: `-quantity` for a SALE,
`+quantity` otherwise, applied per line item in request order. -/
def applyDeltas (ty : String) (items : List ReqItem) (vs : List ProductVariant) :
    List ProductVariant :=
  items.foldl
    (fun acc item =>
      updStock acc item.productVariantId
        (if ty == "SALE" then -item.quantity else item.quantity))
    vs

/-- The `!storeId || !cashierId || !items || items.length === 0 ||
!paymentMethod` validation condition. -/
def txnFieldsMissing (req : CreateTxnReq) : Bool :=
  strFalsy req.storeId || strFalsy req.cashierId || itemsMissing req.items ||
    strFalsy req.paymentMethod

/-- The body of `createTransaction`
(`src/src/controllers/transactions.controller.ts`), in source order: tenant
context (401), required fields (400), tenant-validated store and cashier
lookups (404), per-item validation loop, computation loop, then the atomic
commit.  `now` and `rand` feed the generated transaction number
`TXN-<now>-<rand>`.  `commitFail` models a database-level failure anywhere
inside the `prisma.$transaction` block (e.g. a unique-constraint violation
on the transaction number); the success value carries the transaction row
together with the database as left by the atomic block. -/
def createTxnAttempt (db : DB) (reqOwnerId : Option String) (req : CreateTxnReq)
    (now : Nat) (rand : String) (commitFail : Bool) :
    Except TxnErr (Transaction × DB) :=
  if strFalsy reqOwnerId then .error .noTenant else
  let tenant := reqOwnerId.getD ""
  if txnFieldsMissing req then .error .missingFields else
  let storeId := req.storeId.getD ""
  let cashierId := req.cashierId.getD ""
  let paymentMethod := req.paymentMethod.getD ""
  let items := req.items.getD []
  let ty := req.type.getD "SALE"
  match storeLookup db tenant storeId with
  | none => .error .storeNotFound
  | some _ =>
  match cashierLookup db tenant cashierId with
  | none => .error .cashierNotFound
  | some _ =>
  match validateItems db tenant ty items with
  | some e => .error e
  | none =>
  match computeItems db items [] 0 with
  | none => .error .internalError
  | some (titems, subtotal) =>
  let tax := numOr req.tax 0
  let discount := numOr req.discount 0
  let total := subtotal + tax - discount
  let change := numOr req.amountPaid total - total
  if commitFail then .error .commitFailed else
  let txn : Transaction :=
    { transactionNo := "TXN-" ++ toString now ++ "-" ++ rand
      type := ty
      storeId := storeId
      cashierId := cashierId
      ownerId := tenant
      subtotal := subtotal
      tax := tax
      discount := discount
      total := total
      paymentMethod := paymentMethod
      amountPaid := numOr req.amountPaid total
      change := if change > 0 then change else 0
      notes := req.notes
      items := titems }
  .ok (txn,
    { db with
        transactions := db.transactions ++ [txn]
        variants := applyDeltas ty items db.variants })

/-- Shallow embedding of the `createTransaction` endpoint.  Every rejection
happens before any write, and the writes of the success path all sit inside
the single `prisma.$transaction`; so the endpoint pairs an error response
with the original database and the success response with the database left
by the atomic block. -/
def createTransaction (db : DB) (reqOwnerId : Option String) (req : CreateTxnReq)
    (now : Nat) (rand : String) (commitFail : Bool) :
    Except TxnErr Transaction × DB :=
  match createTxnAttempt db reqOwnerId req now rand commitFail with
  | .error e => (.error e, db)
  | .ok (txn, db2) => (.ok txn, db2)

/-- HTTP status of a transaction-creation response (`201` on success). -/
def txnRespStatus : Except TxnErr Transaction → Nat
  | .error e => e.status
  | .ok _ => 201

/-- Whether a transaction-creation attempt committed. -/
def isCommitted : Except TxnErr Transaction → Bool
  | .ok _ => true
  | .error _ => false

/-- Stock of a variant by id, for stating concrete outcomes. -/
def stockOf (db : DB) (variantId : String) : Option Int :=
  (variantLookup db variantId).map ProductVariant.stockQuantity

/-- Error sites of the variant read endpoints. -/
inductive VarErr where
  | noTenant
  | notFound
deriving DecidableEq, Repr

def VarErr.status : VarErr → Nat
  | .noTenant => 401
  | .notFound => 404

/-- Shallow embedding of `getVariantById` (product-variants controller): a
tenant-validated read.  The source looks the variant up by unique id with its
parent product and answers 404 when the variant is absent or its product's
`ownerId` differs from the tenant. -/
def getVariantById (db : DB) (reqOwnerId : Option String) (id : String) :
    Except VarErr (ProductVariant × Product) :=
  if strFalsy reqOwnerId then .error .noTenant else
  let tenant := reqOwnerId.getD ""
  match variantWithProduct db id with
  | none => .error .notFound
  | some (v, p) =>
    if p.ownerId != tenant then .error .notFound else .ok (v, p)

/-- Error sites of `adjustStock`, one constructor per `sendError`. -/
inductive AdjErr where
  | noTenant
  | missingOrZero
  | notFound
  | insufficient
deriving DecidableEq, Repr

def AdjErr.status : AdjErr → Nat
  | .noTenant => 401
  | .missingOrZero => 400
  | .notFound => 404
  | .insufficient => 400

/-- Success payload of `adjustStock`. -/
structure AdjOk where
  variant : ProductVariant
  previousStock : Int
  adjustment : Int
  newStock : Int
deriving DecidableEq, Repr

/-- Shallow embedding of `adjustStock` (product-variants controller): the
adjustment must be present and nonzero (`adjustment === undefined ||
adjustment === 0` is rejected with 400); the variant must exist and its
product belong to the tenant (else 404); the new stock
`variant.stockQuantity + adjustment` must be nonnegative (else 400); only
then is the variant's stock set to the new value. -/
def adjustStock (db : DB) (reqOwnerId : Option String) (id : String)
    (adjustment : Option Int) : Except AdjErr AdjOk × DB :=
  if strFalsy reqOwnerId then (.error .noTenant, db) else
  let tenant := reqOwnerId.getD ""
  match adjustment with
  | none => (.error .missingOrZero, db)
  | some adj =>
  if adj == 0 then (.error .missingOrZero, db) else
  match variantWithProduct db id with
  | none => (.error .notFound, db)
  | some (v, p) =>
  if p.ownerId != tenant then (.error .notFound, db) else
  let newStockQuantity := v.stockQuantity + adj
  if newStockQuantity < 0 then (.error .insufficient, db) else
  (.ok { variant := { v with stockQuantity := newStockQuantity }
         previousStock := v.stockQuantity
         adjustment := adj
         newStock := newStockQuantity },
   { db with
       variants := db.variants.map fun w =>
         if w.id == id then { w with stockQuantity := newStockQuantity } else w })

/-- The trusted payload the `authenticate` middleware attaches as `req.user`. -/
structure JwtPayload where
  userId : String
  email : String
  role : UserRole
  ownerId : String
deriving DecidableEq, Repr

/-- Body of an employee-creation request; `role` arrives as a string and is
compared against the enum values by name. -/
structure CreateEmpReq where
  email : Option String
  password : Option String
  firstName : Option String
  lastName : Option String
  role : Option String
  phone : Option String
  storeId : Option String
deriving DecidableEq, Repr

/-- Error sites of the employee-creation route: the `authorize` middleware
rejection plus every `sendError` of the controller.  The password-strength
checks all carry status 400 and are collapsed into one constructor. -/
inductive EmpErr where
  | routeForbidden
  | noTenant
  | missingFields
  | notOwnerOrManager
  | managerOnlyCashier
  | cannotCreateOwner
  | invalidEmail
  | weakPassword
  | emailExists
  | storeNotFound
  | internalError
deriving DecidableEq, Repr

def EmpErr.status : EmpErr → Nat
  | .routeForbidden => 403
  | .noTenant => 401
  | .missingFields => 400
  | .notOwnerOrManager => 403
  | .managerOnlyCashier => 403
  | .cannotCreateOwner => 403
  | .invalidEmail => 400
  | .weakPassword => 400
  | .emailExists => 409
  | .storeNotFound => 404
  | .internalError => 500

/-- The whitespace class used by the email regex, restricted to the ASCII
space characters that can occur in our embedding. -/
def isJsSpace (c : Char) : Bool :=
  c == ' ' || c == '\t' || c == '\n' || c == '\r' || c == '\x0b' || c == '\x0c'

/-- The email check `/^[^\s@]+@[^\s@]+\.[^\s@]+$/` unrolled: no whitespace
anywhere, exactly one `@` which is not the first character, and some `.` in
the part after the `@` with at least one character on each side of it. -/
def emailOk (s : String) : Bool :=
  let cs := s.toList
  cs.all (fun c => !isJsSpace c) && cs.count '@' == 1 &&
  match cs.findIdx? (· == '@') with
  | none => false
  | some i =>
    decide (1 ≤ i) && ((cs.drop (i + 1)).drop 1).dropLast.any (· == '.')

def isAsciiUpper (c : Char) : Bool := 'A' ≤ c && c ≤ 'Z'
def isAsciiLower (c : Char) : Bool := 'a' ≤ c && c ≤ 'z'
def isAsciiDigit (c : Char) : Bool := '0' ≤ c && c ≤ '9'

/-- The password-strength checks: at least 8 characters, one ASCII uppercase
letter, one lowercase letter and one digit. -/
def passwordOk (s : String) : Bool :=
  8 ≤ s.length && s.toList.any isAsciiUpper && s.toList.any isAsciiLower &&
    s.toList.any isAsciiDigit

/-- The Prisma `UserRole` enum by name; any other string is rejected by the
database at `create` time, which the catch handler reports as 500. -/
def roleOfString : String → Option UserRole
  | "OWNER" => some UserRole.OWNER
  | "MANAGER" => some UserRole.MANAGER
  | "CASHIER" => some UserRole.CASHIER
  | _ => none

/-- The required-fields condition of `createEmployee`. -/
def empFieldsMissing (req : CreateEmpReq) : Bool :=
  strFalsy req.email || strFalsy req.password || strFalsy req.firstName ||
    strFalsy req.lastName || strFalsy req.role || strFalsy req.storeId

/-- The body of `POST /auth/employees`: the
`authorize(UserRole.OWNER, UserRole.MANAGER)` middleware followed by the
`createEmployee` controller, in source order — route role gate, tenant
context, required fields, controller role gates (OWNER/MANAGER, MANAGER may
only create CASHIER, nobody creates OWNER), email format, password strength,
email uniqueness, tenant-validated store lookup, then the insert.  `newId` is
the database-generated id of the created row. -/
def createEmpAttempt (db : DB) (caller : JwtPayload) (reqOwnerId : Option String)
    (req : CreateEmpReq) (newId : String) : Except EmpErr (User × DB) :=
  if !(caller.role == UserRole.OWNER || caller.role == UserRole.MANAGER) then
    .error .routeForbidden
  else
  if strFalsy reqOwnerId then .error .noTenant else
  let tenant := reqOwnerId.getD ""
  if empFieldsMissing req then .error .missingFields else
  let email := req.email.getD ""
  let password := req.password.getD ""
  let role := req.role.getD ""
  let storeId := req.storeId.getD ""
  if caller.role != UserRole.OWNER && caller.role != UserRole.MANAGER then
    .error .notOwnerOrManager
  else if caller.role == UserRole.MANAGER && role != "CASHIER" then
    .error .managerOnlyCashier
  else if role == "OWNER" then .error .cannotCreateOwner
  else if !emailOk email then .error .invalidEmail
  else if !passwordOk password then .error .weakPassword
  else
  match db.users.find? (fun u => u.email == email) with
  | some _ => .error .emailExists
  | none =>
  match storeLookup db tenant storeId with
  | none => .error .storeNotFound
  | some _ =>
  match roleOfString role with
  | none => .error .internalError
  | some r =>
    let emp : User :=
      { id := newId, email := email, ownerId := some tenant, role := r
        storeId := some storeId }
    .ok (emp, { db with users := db.users ++ [emp] })

/-- Shallow embedding of the employee-creation route: rejections mutate
nothing, success installs the created row. -/
def createEmployee (db : DB) (caller : JwtPayload) (reqOwnerId : Option String)
    (req : CreateEmpReq) (newId : String) : Except EmpErr User × DB :=
  match createEmpAttempt db caller reqOwnerId req newId with
  | .error e => (.error e, db)
  | .ok (emp, db2) => (.ok emp, db2)

/-! ### Concrete fixtures

A one-tenant database used for evaluations and witnesses: tenant `A` (an
OWNER ringing up their own sales) with one store, one product and one
variant priced 10 with stock 5, plus a second tenant `B` owning a store, for
cross-tenant scenarios. -/

def storeA : Store := { id := "s1", ownerId := "A" }

def storeB : Store := { id := "s2", ownerId := "B" }

def ownerA : User :=
  { id := "A", email := "a@x.co", ownerId := none, role := UserRole.OWNER
    storeId := none }

def productA : Product := { id := "p1", ownerId := "A" }

def productB : Product := { id := "p2", ownerId := "B" }

def variantA : ProductVariant :=
  { id := "v1", productId := "p1", sku := "K1", sellingPrice := 10
    stockQuantity := 5 }

def variantB : ProductVariant :=
  { id := "v2", productId := "p2", sku := "K2", sellingPrice := 7
    stockQuantity := 4 }

def dbA : DB :=
  { stores := [storeA, storeB], users := [ownerA]
    products := [productA, productB], variants := [variantA, variantB]
    transactions := [] }

def mkItem (vid : String) (qty : Int) : ReqItem :=
  { productVariantId := vid, quantity := qty, discount := none, price := none }

/-- A well-formed sale request body over the fixture database. -/
def baseReq (its : List ReqItem) : CreateTxnReq :=
  { storeId := some "s1", cashierId := some "A", type := none
    items := some its, paymentMethod := some "CASH", amountPaid := none
    notes := none, tax := none, discount := none }

/-- The projection of a line item onto the fields the controller reads. -/
def scrubItem (it : ReqItem) : ReqItem := { it with price := none }

/-- The projection of a request body onto the fields the controller reads:
two bodies with the same `scrubReq` differ only in client-supplied price
fields. -/
def scrubReq (req : CreateTxnReq) : CreateTxnReq :=
  { req with items := req.items.map (List.map scrubItem) }

/-- The transaction row committed for a sale of 2 units of `variantA`. -/
def txnW : Transaction :=
  { transactionNo := "TXN-0-R", type := "SALE", storeId := "s1", cashierId := "A"
    ownerId := "A", subtotal := 20, tax := 0, discount := 0, total := 20
    paymentMethod := "CASH", amountPaid := 20, change := 0, notes := none
    items := [{ productVariantId := "v1", quantity := 2, unitPrice := 10
                discount := 0, subtotal := 20 }] }

/-- A CASHIER employed by tenant `B`. -/
def cashierB : User :=
  { id := "CB", email := "cb@x.co", ownerId := some "B", role := UserRole.CASHIER
    storeId := some "s2" }

/-- The fixture database extended with tenant `B`'s cashier, for cross-tenant
cashier scenarios. -/
def dbWithB : DB := { dbA with users := [ownerA, cashierB] }

/-- A MANAGER of tenant `A`. -/
def callerM : JwtPayload :=
  { userId := "M1", email := "m@x.co", role := UserRole.MANAGER, ownerId := "A" }

/-- An employee-creation body requesting the MANAGER role. -/
def empReqM : CreateEmpReq :=
  { email := some "e@x.co", password := some "Passw0rd", firstName := some "F"
    lastName := some "L", role := some "MANAGER", phone := none
    storeId := some "s1" }

/-! ### Supporting lemmas -/

/-- What the computation loop produces: the built rows extend the
accumulator, the running subtotal is the sum of the new rows' subtotals, and
every new row's `subtotal` and `unitPrice` come from the stored variant. -/
theorem computeItems_spec (db : DB) (items : List ReqItem) :
    ∀ (acc : List TransactionItem) (s : Int) (tis : List TransactionItem) (sub : Int),
      computeItems db items acc s = some (tis, sub) →
      ∃ new, tis = acc ++ new ∧
        sub = s + (new.map TransactionItem.subtotal).sum ∧
        ∀ ti ∈ new, ti.subtotal = ti.unitPrice * ti.quantity - ti.discount ∧
          ∃ v, variantLookup db ti.productVariantId = some v ∧
            ti.unitPrice = v.sellingPrice := by
  induction items with
  | nil =>
    intro acc s tis sub h
    simp only [computeItems, Option.some.injEq, Prod.mk.injEq] at h
    exact ⟨[], by simp [h.1.symm], by simp [h.2.symm], by simp⟩
  | cons item rest ih =>
    intro acc s tis sub h
    simp only [computeItems] at h
    cases hv : variantLookup db item.productVariantId with
    | none => rw [hv] at h; exact Option.noConfusion h
    | some v =>
      simp only [hv] at h
      obtain ⟨new, h1, h2, h3⟩ := ih _ _ _ _ h
      refine ⟨{ productVariantId := item.productVariantId
                quantity := item.quantity
                unitPrice := v.sellingPrice
                discount := numOr item.discount 0
                subtotal := v.sellingPrice * item.quantity - numOr item.discount 0 }
                :: new,
              ?_, ?_, ?_⟩
      · simpa using h1
      · simp only [List.map_cons, List.sum_cons] at *
        omega
      · intro ti hti
        rcases List.mem_cons.mp hti with hti | hti
        · subst hti
          exact ⟨rfl, v, hv, rfl⟩
        · exact h3 ti hti

/-- A rejected transaction-creation attempt returns the original database. -/
theorem createTransaction_fail_frame (db : DB) (o : Option String)
    (req : CreateTxnReq) (now : Nat) (rand : String) (f : Bool) (e : TxnErr)
    (h : (createTransaction db o req now rand f).1 = Except.error e) :
    (createTransaction db o req now rand f).2 = db := by
  unfold createTransaction at h ⊢
  rcases hc : createTxnAttempt db o req now rand f with e2 | ⟨txn, db2⟩ <;>
    simp only [hc] at h ⊢
  simp at h

/-- The endpoint's error response determines the attempt's error. -/
theorem createTransaction_fst_error (db : DB) (o : Option String)
    (req : CreateTxnReq) (now : Nat) (rand : String) (f : Bool) (e : TxnErr) :
    (createTransaction db o req now rand f).1 = Except.error e ↔
      createTxnAttempt db o req now rand f = Except.error e := by
  unfold createTransaction
  rcases hc : createTxnAttempt db o req now rand f with e2 | ⟨txn, db2⟩ <;> simp [hc]

/-- The endpoint's success response determines the attempt's success. -/
theorem createTransaction_fst_ok (db : DB) (o : Option String) (req : CreateTxnReq)
    (now : Nat) (rand : String) (f : Bool) (txn : Transaction) :
    (createTransaction db o req now rand f).1 = Except.ok txn ↔
      ∃ db2, createTxnAttempt db o req now rand f = Except.ok (txn, db2) := by
  unfold createTransaction
  rcases hc : createTxnAttempt db o req now rand f with e2 | ⟨txn2, db2⟩ <;> simp [hc]

theorem ite_pos_eq_max (c : Int) : (if c > 0 then c else 0) = max 0 c := by
  by_cases hc : c > 0
  · rw [if_pos hc, max_eq_right hc.le]
  · rw [if_neg hc, max_eq_left (by omega)]

/-- Inversion for a successful attempt: the committed row's financial fields
and the shape of the database after the atomic block. -/
theorem createTxnAttempt_ok_spec (db : DB) (o : Option String) (req : CreateTxnReq)
    (now : Nat) (rand : String) (f : Bool) (txn : Transaction) (db2 : DB)
    (h : createTxnAttempt db o req now rand f = Except.ok (txn, db2)) :
    computeItems db (req.items.getD []) [] 0 = some (txn.items, txn.subtotal) ∧
    txn.tax = numOr req.tax 0 ∧
    txn.discount = numOr req.discount 0 ∧
    txn.total = txn.subtotal + txn.tax - txn.discount ∧
    txn.amountPaid = numOr req.amountPaid txn.total ∧
    txn.change = max 0 (txn.amountPaid - txn.total) ∧
    txn.type = req.type.getD "SALE" ∧
    db2 = { db with
              transactions := db.transactions ++ [txn]
              variants := applyDeltas (req.type.getD "SALE") (req.items.getD [])
                            db.variants } := by
  unfold createTxnAttempt at h
  simp only [] at h
  split at h
  · exact Except.noConfusion h
  split at h
  · exact Except.noConfusion h
  split at h
  · exact Except.noConfusion h
  split at h
  · exact Except.noConfusion h
  split at h
  · exact Except.noConfusion h
  split at h
  · exact Except.noConfusion h
  rename_i titems subtotal hci
  split at h
  · exact Except.noConfusion h
  obtain ⟨h1, h2⟩ := Prod.mk.inj (Except.ok.inj h)
  subst h2
  subst h1
  exact ⟨hci, rfl, rfl, rfl, rfl, ite_pos_eq_max _, rfl, rfl⟩

/-- With a failure inside the atomic block nothing can commit. -/
theorem createTxnAttempt_commitFail (db : DB) (o : Option String)
    (req : CreateTxnReq) (now : Nat) (rand : String) (p : Transaction × DB) :
    createTxnAttempt db o req now rand true ≠ Except.ok p := by
  intro h
  unfold createTxnAttempt at h
  simp only [] at h
  split at h
  · exact Except.noConfusion h
  split at h
  · exact Except.noConfusion h
  split at h
  · exact Except.noConfusion h
  split at h
  · exact Except.noConfusion h
  split at h
  · exact Except.noConfusion h
  split at h
  · exact Except.noConfusion h
  simp at h

@[simp] theorem scrubItem_productVariantId (it : ReqItem) :
    (scrubItem it).productVariantId = it.productVariantId := rfl

@[simp] theorem scrubItem_quantity (it : ReqItem) :
    (scrubItem it).quantity = it.quantity := rfl

@[simp] theorem scrubItem_discount (it : ReqItem) :
    (scrubItem it).discount = it.discount := rfl

/-- The validation loop reads none of the scrubbed-away fields. -/
theorem validateItems_scrub (db : DB) (t ty : String) (its : List ReqItem) :
    validateItems db t ty (its.map scrubItem) = validateItems db t ty its := by
  induction its with
  | nil => rfl
  | cons item rest ih =>
    simp only [List.map_cons, validateItems, scrubItem_productVariantId,
      scrubItem_quantity]
    cases variantWithProduct db item.productVariantId with
    | none => rfl
    | some vp =>
      obtain ⟨v, p⟩ := vp
      by_cases hp : (p.ownerId != t) = true
      · simp [hp]
      · simp only [Bool.not_eq_true] at hp
        simp only [hp, Bool.false_eq_true, if_false]
        split
        · rfl
        · exact ih

/-- The computation loop reads none of the scrubbed-away fields. -/
theorem computeItems_scrub (db : DB) (its : List ReqItem) :
    ∀ (acc : List TransactionItem) (s : Int),
      computeItems db (its.map scrubItem) acc s = computeItems db its acc s := by
  induction its with
  | nil => intro acc s; rfl
  | cons item rest ih =>
    intro acc s
    simp only [List.map_cons, computeItems, scrubItem_productVariantId,
      scrubItem_quantity, scrubItem_discount]
    cases variantLookup db item.productVariantId with
    | none => rfl
    | some v => exact ih _ _

/-- The stock-update loop reads none of the scrubbed-away fields. -/
theorem applyDeltas_scrub (ty : String) (its : List ReqItem) :
    ∀ vs, applyDeltas ty (its.map scrubItem) vs = applyDeltas ty its vs := by
  induction its with
  | nil => intro vs; rfl
  | cons item rest ih =>
    intro vs
    simp only [List.map_cons, applyDeltas, List.foldl_cons,
      scrubItem_productVariantId, scrubItem_quantity]
    exact ih _

theorem itemsMissing_scrub (its : Option (List ReqItem)) :
    itemsMissing (its.map (List.map scrubItem)) = itemsMissing its := by
  cases its with
  | none => rfl
  | some l => cases l <;> rfl

theorem txnFieldsMissing_scrub (req : CreateTxnReq) :
    txnFieldsMissing (scrubReq req) = txnFieldsMissing req := by
  simp only [txnFieldsMissing, scrubReq, itemsMissing_scrub]

theorem getD_scrub (its : Option (List ReqItem)) :
    (its.map (List.map scrubItem)).getD [] = (its.getD []).map scrubItem := by
  cases its <;> rfl

/-- The whole attempt is invariant under scrubbing the client-supplied price
fields. -/
theorem createTxnAttempt_scrub (db : DB) (o : Option String) (req : CreateTxnReq)
    (now : Nat) (rand : String) (f : Bool) :
    createTxnAttempt db o (scrubReq req) now rand f =
      createTxnAttempt db o req now rand f := by
  unfold createTxnAttempt
  rw [txnFieldsMissing_scrub]
  simp only [scrubReq, getD_scrub, validateItems_scrub, computeItems_scrub,
    applyDeltas_scrub]

/-- The validation loop can only reject a missing/foreign variant or
insufficient stock. -/
theorem validateItems_err_shape (db : DB) (t ty : String) (its : List ReqItem)
    (e : TxnErr) (h : validateItems db t ty its = some e) :
    (∃ pid, e = TxnErr.variantNotFound pid) ∨
    (∃ sku a q, e = TxnErr.insufficientStock sku a q) := by
  induction its with
  | nil =>
    simp only [validateItems] at h
    exact Option.noConfusion h
  | cons item rest ih =>
    simp only [validateItems] at h
    cases hvp : variantWithProduct db item.productVariantId with
    | none =>
      simp only [hvp] at h
      exact Or.inl ⟨_, (Option.some.inj h).symm⟩
    | some vp =>
      obtain ⟨v, p⟩ := vp
      simp only [hvp] at h
      split at h
      · exact Or.inl ⟨_, (Option.some.inj h).symm⟩
      · split at h
        · exact Or.inr ⟨_, _, _, (Option.some.inj h).symm⟩
        · exact ih h

/-- Once tenant, fields and store pass, the attempt answers the cashier
404 exactly when the cashier lookup comes back empty. -/
theorem createTxnAttempt_cashier (db : DB) (t : String) (req : CreateTxnReq)
    (now : Nat) (rand : String) (f : Bool) (s : Store)
    (ht : t ≠ "") (hfields : txnFieldsMissing req = false)
    (hstore : storeLookup db t (req.storeId.getD "") = some s) :
    (createTxnAttempt db (some t) req now rand f =
        Except.error TxnErr.cashierNotFound ↔
      cashierLookup db t (req.cashierId.getD "") = none) := by
  have hsf : strFalsy (some t) = false := by simp [strFalsy, ht]
  unfold createTxnAttempt
  simp only [hsf, hfields, Option.getD_some, hstore, Bool.false_eq_true, if_false]
  cases hc : cashierLookup db t (req.cashierId.getD "") with
  | none => simp
  | some u =>
    simp only []
    constructor
    · intro h
      exfalso
      cases hvi : validateItems db t (req.type.getD "SALE") (req.items.getD []) with
      | some e =>
        simp only [hvi] at h
        rcases validateItems_err_shape db t _ _ e hvi with ⟨pid, rfl⟩ | ⟨sku, a, q, rfl⟩ <;>
          exact TxnErr.noConfusion (Except.error.inj h)
      | none =>
        simp only [hvi] at h
        cases hci : computeItems db (req.items.getD []) [] 0 with
        | none =>
          simp only [hci] at h
          exact TxnErr.noConfusion (Except.error.inj h)
        | some p2 =>
          obtain ⟨titems, subtotal⟩ := p2
          simp only [hci] at h
          split at h
          · exact TxnErr.noConfusion (Except.error.inj h)
          · exact Except.noConfusion h
    · intro h
      exact Option.noConfusion h

/-- The cashier lookup comes back empty exactly when no stored user passes
the tenant condition of the source query. -/
theorem cashierLookup_eq_none_iff (db : DB) (t cid : String) :
    cashierLookup db t cid = none ↔
      ∀ u ∈ db.users, ¬(u.id = cid ∧
        (u.ownerId = some t ∨ (u.id = t ∧ u.role = UserRole.OWNER))) := by
  rw [cashierLookup, List.find?_eq_none]
  constructor
  · intro h u hm hcontra
    obtain ⟨h1, h2⟩ := hcontra
    apply h u hm
    simp only [Bool.and_eq_true, Bool.or_eq_true, beq_iff_eq]
    refine ⟨h1, ?_⟩
    rcases h2 with h2 | ⟨h2a, h2b⟩
    · exact Or.inl h2
    · exact Or.inr ⟨h2a, h2b⟩
  · intro h u hm
    have hu := h u hm
    simp only [Bool.and_eq_true, Bool.or_eq_true, beq_iff_eq]
    intro hcontra
    refine hu ⟨hcontra.1, ?_⟩
    rcases hcontra.2 with h2 | ⟨h2a, h2b⟩
    · exact Or.inl h2
    · exact Or.inr ⟨h2a, h2b⟩

/-- A successful attempt implies the cashier lookup found a user. -/
theorem createTxnAttempt_ok_cashier (db : DB) (o : Option String)
    (req : CreateTxnReq) (now : Nat) (rand : String) (f : Bool)
    (p : Transaction × DB)
    (h : createTxnAttempt db o req now rand f = Except.ok p) :
    ∃ u, cashierLookup db (o.getD "") (req.cashierId.getD "") = some u := by
  unfold createTxnAttempt at h
  simp only [] at h
  split at h
  · exact Except.noConfusion h
  split at h
  · exact Except.noConfusion h
  split at h
  · exact Except.noConfusion h
  split at h
  · exact Except.noConfusion h
  rename_i u hc
  exact ⟨u, hc⟩

/-- A created employee implies the caller passed both role gates. -/
theorem createEmpAttempt_ok_roles (db : DB) (caller : JwtPayload)
    (o : Option String) (req : CreateEmpReq) (newId : String) (p : User × DB)
    (h : createEmpAttempt db caller o req newId = Except.ok p) :
    (caller.role = UserRole.OWNER ∨ caller.role = UserRole.MANAGER) ∧
    (caller.role = UserRole.MANAGER → req.role.getD "" = "CASHIER") := by
  unfold createEmpAttempt at h
  simp only [] at h
  split at h
  · exact Except.noConfusion h
  rename_i hgate
  split at h
  · exact Except.noConfusion h
  split at h
  · exact Except.noConfusion h
  split at h
  · exact Except.noConfusion h
  split at h
  · exact Except.noConfusion h
  rename_i hmgr
  split at h
  · exact Except.noConfusion h
  split at h
  · exact Except.noConfusion h
  split at h
  · exact Except.noConfusion h
  split at h
  · exact Except.noConfusion h
  split at h
  · exact Except.noConfusion h
  split at h
  · exact Except.noConfusion h
  constructor
  · exact or_iff_not_imp_left.mpr (by simpa using hgate)
  · intro hm
    by_contra hne
    exact hmgr (by simp [hm, hne])

/-! ### The claims -/

/-- C1: the claim — every reachable state keeps `stockQuantity ≥ 0` and the
commit-time stock delta is conditional, failing the atomic unit rather than
driving stock negative — fails on the code.  A single SALE whose two line
items reference the same variant (stock 5, quantity 3 each) passes the
per-item pre-check twice, the unconditional increments inside the commit
both apply, and the attempt commits with the variant's stock at −1. -/
theorem saleDuplicateVariant_negativeStock :
    stockOf dbA "v1" = some 5 ∧
    isCommitted (createTransaction dbA (some "A")
        (baseReq [mkItem "v1" 3, mkItem "v1" 3]) 0 "R" false).1 = true ∧
    stockOf (createTransaction dbA (some "A")
        (baseReq [mkItem "v1" 3, mkItem "v1" 3]) 0 "R" false).2 "v1" = some (-1) :=
  ⟨rfl, rfl, rfl⟩

/-- C2: if a transaction-creation attempt fails at any point — a rejection
before the atomic block or a database failure inside it (`commitFail`) —
then no state from the attempt persists: the returned database, its
transaction list and every variant's stock are exactly the ones from before
the request. -/
theorem createTransaction_atomic (db : DB) (o : Option String) (req : CreateTxnReq)
    (now : Nat) (rand : String) (f : Bool) (e : TxnErr)
    (h : (createTransaction db o req now rand f).1 = Except.error e) :
    (createTransaction db o req now rand f).2 = db ∧
    (createTransaction db o req now rand f).2.transactions = db.transactions ∧
    (createTransaction db o req now rand f).2.variants = db.variants := by
  have hf := createTransaction_fail_frame db o req now rand f e h
  exact ⟨hf, by rw [hf], by rw [hf]⟩

theorem createTransaction_atomic_witness :
    (createTransaction dbA (some "A") (baseReq [mkItem "v1" 2]) 0 "R" true).2 = dbA ∧
    (createTransaction dbA (some "A") (baseReq [mkItem "v1" 2]) 0 "R" true).2.transactions
      = dbA.transactions ∧
    (createTransaction dbA (some "A") (baseReq [mkItem "v1" 2]) 0 "R" true).2.variants
      = dbA.variants :=
  createTransaction_atomic dbA (some "A") (baseReq [mkItem "v1" 2]) 0 "R" true
    TxnErr.commitFailed rfl

/-- C3: cross-tenant references — store, cashier or product variant — are
rejected as NotFound, never Forbidden, with nothing of the other tenant
returned or mutated: no error of `createTransaction` or `getVariantById`
carries status 403; a variant read succeeds only when the parent product
belongs to the caller's tenant; the item-validation loop answers the variant
404 for a foreign variant; a request naming a store owned by another tenant
gets the store 404 with the database unchanged; a request naming a cashier
employed by another tenant gets the cashier 404 with the database unchanged;
and a committed transaction implies its cashier passed the own-tenant
predicate, so no foreign cashier's data is ever embedded in a success
response. -/
theorem cross_tenant_isolation :
    (∀ (db : DB) (o : Option String) (req : CreateTxnReq) (now : Nat)
        (rand : String) (f : Bool) (e : TxnErr),
        (createTransaction db o req now rand f).1 = Except.error e →
        TxnErr.status e ≠ 403) ∧
    (∀ (db : DB) (o : Option String) (vid : String) (e : VarErr),
        getVariantById db o vid = Except.error e → VarErr.status e ≠ 403) ∧
    (∀ (db : DB) (t vid : String) (v : ProductVariant) (p : Product),
        getVariantById db (some t) vid = Except.ok (v, p) → p.ownerId = t) ∧
    (∀ (db : DB) (t ty : String) (item : ReqItem) (rest : List ReqItem)
        (v : ProductVariant) (p : Product),
        variantWithProduct db item.productVariantId = some (v, p) →
        p.ownerId ≠ t →
        validateItems db t ty (item :: rest) =
          some (TxnErr.variantNotFound item.productVariantId)) ∧
    (∀ (db : DB) (t b : String) (req : CreateTxnReq) (now : Nat) (rand : String)
        (f : Bool),
        t ≠ "" → txnFieldsMissing req = false → b ≠ t →
        (∀ s ∈ db.stores, s.id = req.storeId.getD "" → s.ownerId = b) →
        createTransaction db (some t) req now rand f =
          (Except.error TxnErr.storeNotFound, db)) ∧
    (∀ (db : DB) (t b : String) (req : CreateTxnReq) (now : Nat) (rand : String)
        (f : Bool) (s : Store),
        t ≠ "" → txnFieldsMissing req = false →
        storeLookup db t (req.storeId.getD "") = some s → b ≠ t →
        (∀ u ∈ db.users, u.id = req.cashierId.getD "" →
            u.ownerId = some b ∧ u.id ≠ t) →
        createTransaction db (some t) req now rand f =
          (Except.error TxnErr.cashierNotFound, db)) ∧
    (∀ (db : DB) (t : String) (req : CreateTxnReq) (now : Nat) (rand : String)
        (f : Bool) (txn : Transaction),
        (createTransaction db (some t) req now rand f).1 = Except.ok txn →
        ∃ u ∈ db.users, u.id = req.cashierId.getD "" ∧
          (u.ownerId = some t ∨ (u.id = t ∧ u.role = UserRole.OWNER))) := by
  refine ⟨?_, ?_, ?_, ?_, ?_, ?_, ?_⟩
  · intro db o req now rand f e _ hc
    cases e <;> simp [TxnErr.status] at hc
  · intro db o vid e _ hc
    cases e <;> simp [VarErr.status] at hc
  · intro db t vid v p h
    simp only [getVariantById] at h
    split at h
    · exact Except.noConfusion h
    · split at h
      · exact Except.noConfusion h
      · rename_i v2 p2 _
        split at h
        · exact Except.noConfusion h
        · rename_i hcond
          obtain ⟨hv, hp⟩ := Prod.mk.inj (Except.ok.inj h)
          subst hp
          simpa using hcond
  · intro db t ty item rest v p hvp hp
    simp only [validateItems, hvp]
    rw [if_pos]
    simpa using hp
  · intro db t b req now rand f ht hfields hb hstores
    have hsl : storeLookup db t (req.storeId.getD "") = none := by
      rw [storeLookup, List.find?_eq_none]
      intro s hs
      simp only [Bool.and_eq_true, beq_iff_eq, not_and]
      intro hid howner
      exact hb ((hstores s hs hid) ▸ howner)
    have hsf : strFalsy (some t) = false := by
      simp [strFalsy, ht]
    unfold createTransaction createTxnAttempt
    simp only [hsf, hfields, Option.getD_some, hsl]
    simp
  · intro db t b req now rand f s ht hfields hstore hb husers
    have hsf : strFalsy (some t) = false := by simp [strFalsy, ht]
    have hcl : cashierLookup db t (req.cashierId.getD "") = none := by
      rw [cashierLookup, List.find?_eq_none]
      intro u hm hp
      simp only [Bool.and_eq_true, Bool.or_eq_true, beq_iff_eq] at hp
      obtain ⟨hid, hrest⟩ := hp
      obtain ⟨hob, hne⟩ := husers u hm hid
      rcases hrest with h2 | ⟨h2a, h2b⟩
      · rw [hob] at h2
        exact hb (Option.some.inj h2)
      · exact hne h2a
    unfold createTransaction createTxnAttempt
    simp only [hsf, hfields, Option.getD_some, hstore, hcl, Bool.false_eq_true,
      if_false]
  · intro db t req now rand f txn h
    obtain ⟨db2, hat⟩ := (createTransaction_fst_ok db (some t) req now rand f txn).mp h
    obtain ⟨u, hu⟩ :=
      createTxnAttempt_ok_cashier db (some t) req now rand f (txn, db2) hat
    refine ⟨u, List.mem_of_find?_eq_some hu, ?_⟩
    have hp := List.find?_some hu
    simp only [Bool.and_eq_true, Bool.or_eq_true, beq_iff_eq] at hp
    exact ⟨hp.1, hp.2⟩

theorem cross_tenant_isolation_witness :
    createTransaction dbWithB (some "A")
        { baseReq [mkItem "v1" 1] with cashierId := some "CB" } 0 "R" false =
      (Except.error TxnErr.cashierNotFound, dbWithB) :=
  cross_tenant_isolation.2.2.2.2.2.1 dbWithB "A" "B"
    { baseReq [mkItem "v1" 1] with cashierId := some "CB" } 0 "R" false storeA
    (by decide) (by decide) rfl (by decide) (by decide)

/-- C4: a committed transaction satisfies the financial arithmetic — each
item's `subtotal` is `unitPrice * quantity - discount`, the transaction's
`subtotal` is the sum of the item subtotals, `total = subtotal + tax -
discount` with tax and discount defaulting to 0 when unsupplied,
`amountPaid` defaults to `total` when unspecified, and the recorded `change`
is `max 0 (amountPaid - total)`. -/
theorem committed_totals (db : DB) (o : Option String) (req : CreateTxnReq)
    (now : Nat) (rand : String) (f : Bool) (txn : Transaction)
    (h : (createTransaction db o req now rand f).1 = Except.ok txn) :
    (∀ ti ∈ txn.items, ti.subtotal = ti.unitPrice * ti.quantity - ti.discount) ∧
    txn.subtotal = (txn.items.map TransactionItem.subtotal).sum ∧
    txn.total = txn.subtotal + txn.tax - txn.discount ∧
    (req.tax = none → txn.tax = 0) ∧
    (req.discount = none → txn.discount = 0) ∧
    (req.amountPaid = none → txn.amountPaid = txn.total) ∧
    txn.change = max 0 (txn.amountPaid - txn.total) := by
  obtain ⟨db2, hat⟩ := (createTransaction_fst_ok db o req now rand f txn).mp h
  obtain ⟨hci, htax, hdisc, htotal, hpaid, hchange, -, -⟩ :=
    createTxnAttempt_ok_spec db o req now rand f txn db2 hat
  obtain ⟨new, hnew, hsub, hti⟩ :=
    computeItems_spec db (req.items.getD []) [] 0 txn.items txn.subtotal hci
  simp only [List.nil_append] at hnew
  refine ⟨?_, ?_, htotal, ?_, ?_, ?_, hchange⟩
  · intro ti hmem
    exact (hti ti (hnew ▸ hmem)).1
  · rw [hnew]
    omega
  · intro hnone; rw [htax, hnone]; rfl
  · intro hnone; rw [hdisc, hnone]; rfl
  · intro hnone; rw [hpaid, hnone]; rfl

theorem committed_totals_witness :
    (∀ ti ∈ txnW.items, ti.subtotal = ti.unitPrice * ti.quantity - ti.discount) ∧
    txnW.subtotal = (txnW.items.map TransactionItem.subtotal).sum ∧
    txnW.total = txnW.subtotal + txnW.tax - txnW.discount ∧
    ((baseReq [mkItem "v1" 2]).tax = none → txnW.tax = 0) ∧
    ((baseReq [mkItem "v1" 2]).discount = none → txnW.discount = 0) ∧
    ((baseReq [mkItem "v1" 2]).amountPaid = none → txnW.amountPaid = txnW.total) ∧
    txnW.change = max 0 (txnW.amountPaid - txnW.total) :=
  committed_totals dbA (some "A") (baseReq [mkItem "v1" 2]) 0 "R" false txnW rfl

/-- C5 counterexample: a SALE of quantity 10 against stock 5 is rejected
with status 400, not the 409 the claim states. -/
theorem insufficientStock_status_400 :
    createTransaction dbA (some "A") (baseReq [mkItem "v1" 10]) 0 "R" false =
      (Except.error (TxnErr.insufficientStock "K1" 5 10), dbA) ∧
    txnRespStatus
      (createTransaction dbA (some "A") (baseReq [mkItem "v1" 10]) 0 "R" false).1
      = 400 :=
  ⟨rfl, rfl⟩

/-- C5 amended: transaction creation never answers 409 — insufficient stock
carries 400, the same status as a validation failure, and any failure inside
the atomic commit (including a transaction-number collision) is caught and
carries 500; with a commit-time failure nothing commits. -/
theorem txn_error_statuses :
    (∀ (db : DB) (o : Option String) (req : CreateTxnReq) (now : Nat)
        (rand : String) (f : Bool) (e : TxnErr),
        (createTransaction db o req now rand f).1 = Except.error e →
        TxnErr.status e ≠ 409) ∧
    (∀ sku a q, TxnErr.status (TxnErr.insufficientStock sku a q) = 400) ∧
    TxnErr.status TxnErr.missingFields = 400 ∧
    TxnErr.status TxnErr.commitFailed = 500 ∧
    (∀ (db : DB) (o : Option String) (req : CreateTxnReq) (now : Nat)
        (rand : String) (txn : Transaction),
        (createTransaction db o req now rand true).1 ≠ Except.ok txn) := by
  refine ⟨?_, fun sku a q => rfl, rfl, rfl, ?_⟩
  · intro db o req now rand f e _ hc
    cases e <;> simp [TxnErr.status] at hc
  · intro db o req now rand txn h
    obtain ⟨db2, hat⟩ := (createTransaction_fst_ok db o req now rand true txn).mp h
    exact createTxnAttempt_commitFail db o req now rand (txn, db2) hat

theorem txn_error_statuses_witness :
    TxnErr.status (TxnErr.insufficientStock "K1" 5 10) ≠ 409 :=
  txn_error_statuses.1 dbA (some "A") (baseReq [mkItem "v1" 10]) 0 "R" false
    (TxnErr.insufficientStock "K1" 5 10) rfl

/-- C6 counterexample: a SALE whose only line item has quantity 0 — with
every other field valid — is not rejected: it commits with status 201, so
non-positive quantities are not validated. -/
theorem nonpositive_quantity_not_rejected :
    isCommitted
      (createTransaction dbA (some "A") (baseReq [mkItem "v1" 0]) 0 "R" false).1
      = true ∧
    txnRespStatus
      (createTransaction dbA (some "A") (baseReq [mkItem "v1" 0]) 0 "R" false).1
      = 201 :=
  ⟨rfl, rfl⟩

/-- C6 amended: a transaction-creation request with tenant context is
rejected with the 400 validation error before any write whenever a required
field (store, cashier, payment method) is missing or the item list is absent
or empty; line-item quantities are not validated. -/
theorem missing_fields_rejected_before_write (db : DB) (t : String)
    (req : CreateTxnReq) (now : Nat) (rand : String) (f : Bool)
    (ht : t ≠ "") (h : txnFieldsMissing req = true) :
    createTransaction db (some t) req now rand f =
      (Except.error TxnErr.missingFields, db) ∧
    TxnErr.status TxnErr.missingFields = 400 := by
  have hsf : strFalsy (some t) = false := by simp [strFalsy, ht]
  refine ⟨?_, rfl⟩
  unfold createTransaction createTxnAttempt
  simp only [hsf, h]
  simp

theorem missing_fields_witness :
    createTransaction dbA (some "A") (baseReq []) 0 "R" false =
      (Except.error TxnErr.missingFields, dbA) ∧
    TxnErr.status TxnErr.missingFields = 400 :=
  missing_fields_rejected_before_write dbA "A" (baseReq []) 0 "R" false
    (by decide) (by decide)

/-- C7 counterexample: a manual adjustment with delta 0 against stock 5 has
`S + D = 5 ≥ 0` yet is rejected (the source refuses an absent or zero
adjustment before anything else), contradicting the claim that every
adjustment with `S + D ≥ 0` succeeds. -/
theorem adjustStock_zero_delta :
    variantA.stockQuantity + 0 ≥ 0 ∧
    adjustStock dbA (some "A") "v1" (some 0) =
      (Except.error AdjErr.missingOrZero, dbA) :=
  ⟨by decide, rfl⟩

/-- C7 amended: for a manual stock adjustment with a present, nonzero signed
delta `D` on a variant the tenant owns with current stock `S`: if
`S + D ≥ 0` the operation succeeds and the variant's stock becomes `S + D`;
if `S + D < 0` it is rejected and the database is unchanged. -/
theorem adjustStock_nonzero_delta (db : DB) (t vid : String) (d : Int)
    (v : ProductVariant) (p : Product)
    (ht : t ≠ "") (hd : d ≠ 0)
    (hv : variantWithProduct db vid = some (v, p)) (hp : p.ownerId = t) :
    (0 ≤ v.stockQuantity + d →
      adjustStock db (some t) vid (some d) =
        (Except.ok { variant := { v with stockQuantity := v.stockQuantity + d }
                     previousStock := v.stockQuantity
                     adjustment := d
                     newStock := v.stockQuantity + d },
         { db with variants := db.variants.map fun w =>
             if w.id == vid then { w with stockQuantity := v.stockQuantity + d }
             else w })) ∧
    (v.stockQuantity + d < 0 →
      adjustStock db (some t) vid (some d) =
        (Except.error AdjErr.insufficient, db)) := by
  have hsf : strFalsy (some t) = false := by simp [strFalsy, ht]
  have hd2 : (d == 0) = false := by simp [hd]
  have hp2 : (p.ownerId != t) = false := by simp [hp]
  constructor
  · intro hpos
    unfold adjustStock
    simp only [hsf, hd2, hv, hp2, Option.getD_some, Bool.false_eq_true, if_false]
    rw [if_neg (by omega)]
  · intro hneg
    unfold adjustStock
    simp only [hsf, hd2, hv, hp2, Option.getD_some, Bool.false_eq_true, if_false]
    rw [if_pos hneg]

theorem adjustStock_nonzero_delta_witness :
    adjustStock dbA (some "A") "v1" (some (-1000)) =
      (Except.error AdjErr.insufficient, dbA) :=
  (adjustStock_nonzero_delta dbA "A" "v1" (-1000) variantA productA
    (by decide) (by decide) rfl rfl).2 (by decide)

/-- C8: once tenant context, required fields and the store check pass, the
cashier reference is rejected with the cashier 404 exactly when no stored
user has id `cashierId` and satisfies `ownerId = tenant`, or `id = tenant`
with role OWNER — i.e. it is accepted exactly when such a user exists. -/
theorem cashier_acceptance (db : DB) (t : String) (req : CreateTxnReq)
    (now : Nat) (rand : String) (f : Bool) (s : Store)
    (ht : t ≠ "") (hfields : txnFieldsMissing req = false)
    (hstore : storeLookup db t (req.storeId.getD "") = some s) :
    ((createTransaction db (some t) req now rand f).1 =
        Except.error TxnErr.cashierNotFound ↔
      ∀ u ∈ db.users, ¬(u.id = req.cashierId.getD "" ∧
        (u.ownerId = some t ∨ (u.id = t ∧ u.role = UserRole.OWNER)))) :=
  (createTransaction_fst_error db (some t) req now rand f
      TxnErr.cashierNotFound).trans
    ((createTxnAttempt_cashier db t req now rand f s ht hfields hstore).trans
      (cashierLookup_eq_none_iff db t (req.cashierId.getD "")))

theorem cashier_acceptance_witness :
    ((createTransaction dbA (some "A") (baseReq [mkItem "v1" 1]) 0 "R" false).1 =
        Except.error TxnErr.cashierNotFound ↔
      ∀ u ∈ dbA.users, ¬(u.id = (baseReq [mkItem "v1" 1]).cashierId.getD "" ∧
        (u.ownerId = some "A" ∨ (u.id = "A" ∧ u.role = UserRole.OWNER)))) :=
  cashier_acceptance dbA "A" (baseReq [mkItem "v1" 1]) 0 "R" false storeA
    (by decide) (by decide) rfl

/-- C9: employee creation is gated on roles — a CASHIER caller is rejected
by the route's 403; a MANAGER caller with a well-formed request naming any
role other than CASHIER gets the 403 manager gate; a created employee
implies the caller was OWNER or MANAGER and, if MANAGER, that the requested
role was CASHIER; both gates carry status 403. -/
theorem employee_creation_role_gates :
    (∀ (db : DB) (caller : JwtPayload) (o : Option String) (req : CreateEmpReq)
        (newId : String), caller.role = UserRole.CASHIER →
        createEmployee db caller o req newId =
          (Except.error EmpErr.routeForbidden, db)) ∧
    (∀ (db : DB) (caller : JwtPayload) (t : String) (req : CreateEmpReq)
        (newId : String), caller.role = UserRole.MANAGER → t ≠ "" →
        empFieldsMissing req = false → req.role.getD "" ≠ "CASHIER" →
        createEmployee db caller (some t) req newId =
          (Except.error EmpErr.managerOnlyCashier, db)) ∧
    (∀ (db : DB) (caller : JwtPayload) (o : Option String) (req : CreateEmpReq)
        (newId : String) (emp : User),
        (createEmployee db caller o req newId).1 = Except.ok emp →
        (caller.role = UserRole.OWNER ∨ caller.role = UserRole.MANAGER) ∧
        (caller.role = UserRole.MANAGER → req.role.getD "" = "CASHIER")) ∧
    EmpErr.status EmpErr.routeForbidden = 403 ∧
    EmpErr.status EmpErr.managerOnlyCashier = 403 := by
  refine ⟨?_, ?_, ?_, rfl, rfl⟩
  · intro db caller o req newId hrole
    unfold createEmployee createEmpAttempt
    simp [hrole]
  · intro db caller t req newId hrole ht hfields hne
    have hsf : strFalsy (some t) = false := by simp [strFalsy, ht]
    unfold createEmployee createEmpAttempt
    simp [hrole, hsf, hfields, hne]
  · intro db caller o req newId emp h
    unfold createEmployee at h
    rcases hc : createEmpAttempt db caller o req newId with e | ⟨emp2, db2⟩ <;>
      simp only [hc] at h
    · exact Except.noConfusion h
    · exact createEmpAttempt_ok_roles db caller o req newId (emp2, db2) hc

theorem employee_creation_role_gates_witness :
    createEmployee dbA callerM (some "A") empReqM "n1" =
      (Except.error EmpErr.managerOnlyCashier, dbA) :=
  employee_creation_role_gates.2.1 dbA callerM "A" empReqM "n1" rfl
    (by decide) (by decide) (by decide)

/-- C10: client-supplied price fields have no effect — two requests whose
bodies agree after scrubbing the price fields produce identical responses
and identical databases, and every committed line item's `unitPrice` is the
`sellingPrice` of the variant as stored in the database. -/
theorem clientPrice_ignored :
    (∀ (db : DB) (o : Option String) (req req2 : CreateTxnReq) (now : Nat)
        (rand : String) (f : Bool),
        scrubReq req = scrubReq req2 →
        createTransaction db o req now rand f =
          createTransaction db o req2 now rand f) ∧
    (∀ (db : DB) (o : Option String) (req : CreateTxnReq) (now : Nat)
        (rand : String) (f : Bool) (txn : Transaction),
        (createTransaction db o req now rand f).1 = Except.ok txn →
        ∀ ti ∈ txn.items, ∃ v, variantLookup db ti.productVariantId = some v ∧
          ti.unitPrice = v.sellingPrice) := by
  constructor
  · intro db o req req2 now rand f hsc
    unfold createTransaction
    rw [← createTxnAttempt_scrub db o req now rand f, hsc, createTxnAttempt_scrub]
  · intro db o req now rand f txn h
    obtain ⟨db2, hat⟩ := (createTransaction_fst_ok db o req now rand f txn).mp h
    obtain ⟨hci, -, -, -, -, -, -, -⟩ :=
      createTxnAttempt_ok_spec db o req now rand f txn db2 hat
    obtain ⟨new, hnew, -, hti⟩ :=
      computeItems_spec db (req.items.getD []) [] 0 txn.items txn.subtotal hci
    simp only [List.nil_append] at hnew
    intro ti hmem
    exact (hti ti (hnew ▸ hmem)).2

theorem clientPrice_ignored_witness :
    createTransaction dbA (some "A")
        (baseReq [{ productVariantId := "v1", quantity := 2, discount := none
                    price := some 999 }]) 0 "R" false =
      createTransaction dbA (some "A") (baseReq [mkItem "v1" 2]) 0 "R" false :=
  clientPrice_ignored.1 dbA (some "A")
    (baseReq [{ productVariantId := "v1", quantity := 2, discount := none
                price := some 999 }])
    (baseReq [mkItem "v1" 2]) 0 "R" false rfl

end Invento
